import Mathlib

/-!
Verification of the usage-gated, deduplicating explanation-creation pipeline of
the ask-anything repository.  The development shallowly embeds, as pure Lean
functions over explicit state, the services the claims are about:

- `OpenAIService` (src/explain-anything-mobile/src/services/ai/OpenAIService.ts):
  `analyzeImage` with its redis result cache, bad-request fallback, and the
  defensive JSON response parser `parseResponse`;
- `ExplanationService`
  (src/explain-anything-mobile/src/services/explanation/ExplanationService.ts):
  `create`, `findDuplicate`, `checkUsageLimit`, `getById`, `list`,
  `toggleFavorite`, `delete`;
- `ChatService` (src/explain-anything-mobile/src/services/explanation/ChatService.ts):
  `sendMessage`, `getHistory`;
- the backend `StorageService`
  (src/explain-anything-backend/src/services/storage/StorageService.ts):
  `uploadImage`, `findByHash`.

Modelling conventions: the Postgres tables behind prisma are explicit lists in
a `DB` record; timestamps are `Nat` milliseconds; JavaScript numbers that carry
fractional values (confidence scores, JSON numbers, dollar costs) are exact
rationals; the external OpenAI client, the `sharp` image pipeline, `JSON.parse`
and the SHA-256 digest are injected as function parameters (they are external
collaborators, not code of this repository); prisma `update` on a unique id is
modelled as updating every record bearing that id (ids are unique in every
reachable state).  String scanning (`toLowerCase`, substring search, the fenced
code-block regular expression) is implemented structurally over character lists
so that every definition evaluates inside the kernel.
-/

/-- Lowercase a string character by character, the model of
`String.prototype.toLowerCase` as used by the list search. -/
def strLower (s : String) : String := ⟨s.data.map Char.toLower⟩

/-- Split a character list at the first occurrence of `sep`, returning the
part strictly before it and the part strictly after it; `none` when `sep` does
not occur.  An empty `sep` matches immediately. -/
def splitFirst (sep : List Char) : List Char → Option (List Char × List Char)
  | [] => if sep = [] then some ([], []) else none
  | c :: cs =>
    if sep.isPrefixOf (c :: cs) then some ([], (c :: cs).drop sep.length)
    else
      match splitFirst sep cs with
      | some (pre, post) => some (c :: pre, post)
      | none => none

/-- Substring containment, the model of a case-exact `contains` filter. -/
def containsSub (needle hay : String) : Bool :=
  (splitFirst needle.data hay.data).isSome

/-- Insert into a list sorted ascending by the `key` projection. -/
def insertAscBy {α : Type} (key : α → Nat) (x : α) : List α → List α
  | [] => [x]
  | y :: ys => if key x < key y then x :: y :: ys else y :: insertAscBy key x ys

/-- Sort ascending by the `key` projection (model of prisma
`orderBy: asc`). -/
def sortAscBy {α : Type} (key : α → Nat) : List α → List α
  | [] => []
  | x :: xs => insertAscBy key x (sortAscBy key xs)

/-- Insert into a list sorted descending by the `key` projection. -/
def insertDescBy {α : Type} (key : α → Nat) (x : α) : List α → List α
  | [] => [x]
  | y :: ys => if key x > key y then x :: y :: ys else y :: insertDescBy key x ys

/-- Sort descending by the `key` projection (model of prisma
`orderBy: desc`). -/
def sortDescBy {α : Type} (key : α → Nat) : List α → List α
  | [] => []
  | x :: xs => insertDescBy key x (sortDescBy key xs)

/-- JSON values, the shape `JSON.parse` can deliver to `parseResponse`. -/
inductive Json : Type
  | str (s : String)
  | num (q : Rat)
  | bool (b : Bool)
  | null
  | arr (xs : List Json)
  | obj (fields : List (String × Json))

/-- JavaScript truthiness of a parsed JSON value. -/
def jsTruthy : Json → Bool
  | .str s => s ≠ ""
  | .num q => q ≠ 0
  | .bool b => b
  | .null => false
  | .arr _ => true
  | .obj _ => true

/-- Render a JSON value into the string slot it lands in.  Only the string
case is ever produced by the claims under verification; a truthy non-string
field would be carried as the raw value by the JavaScript and is rendered
here. -/
def jsToDisplay : Json → String
  | .str s => s
  | .num q => toString q
  | .bool b => toString b
  | .null => "null"
  | .arr _ => "[array]"
  | .obj _ => "[object]"

/-- Property access `parsed.field` on a parsed JSON value: only objects have
fields, everything else yields `undefined` (modelled as `none`).  Access on
`null` is handled separately by the caller because it throws in JavaScript. -/
def jsGet (j : Json) (field : String) : Option Json :=
  match j with
  | .obj fields => (fields.find? (fun kv => kv.fst == field)).map (fun kv => kv.snd)
  | _ => none

/- ----------------------------------------------------------------- -/
/- OpenAIService (src/services/ai/OpenAIService.ts)                  -/
/- ----------------------------------------------------------------- -/

/-- Input of `OpenAIService.analyzeImage` (interface
`VisionAnalysisRequest`). -/
structure VisionAnalysisRequest where
  imageUrl : String
  prompt : Option String
  isDeveloperMode : Bool
  language : String
deriving Repr, DecidableEq

/-- Output of `OpenAIService.analyzeImage` (interface
`VisionAnalysisResponse`). -/
structure VisionAnalysisResponse where
  explanation : String
  category : String
  tags : List String
  confidence : Rat
  tokensUsed : Nat
  processingTimeMs : Nat
deriving Repr, DecidableEq

namespace OpenAIService

/-- Content of one `client.chat.completions.create` call, enough to
distinguish the primary analysis call from the fallback call. -/
structure ProviderCall where
  model : String
  maxTokens : Nat
  temperature : Rat
  systemPrompt : Option String
  userText : String
  imageUrl : String
  detail : String
deriving Repr, DecidableEq

/-- Failure modes of the external client: an `OpenAI.APIError` carrying an
HTTP status, or any other thrown error (connection failure, timeout). -/
inductive ProviderError : Type
  | apiError (status : Nat)
  | connection (msg : String)
deriving Repr, DecidableEq

/-- The part of a completion the service reads: `choices[0]?.message?.content`
and `usage?.total_tokens`. -/
structure Completion where
  content : Option String
  totalTokens : Option Nat
deriving Repr, DecidableEq

/-- Errors `analyzeImage` can propagate: the explicit empty-response throw,
a rethrown provider error, or the terminal throw of `fallbackAnalysis`. -/
inductive AnalyzeError : Type
  | emptyResponse
  | provider (e : ProviderError)
  | fallbackFailed
deriving Repr, DecidableEq

/-- The test `error instanceof OpenAI.APIError && error.status === 400`. -/
def isBadRequest : ProviderError → Bool
  | .apiError 400 => true
  | _ => false

/-- Cache key of `getCacheKey`: the SHA-256 of the JSON serialization of the
four inputs, with the prompt defaulted to the empty string
(`prompt: request.prompt || ''`).  The hash of the serialization is modelled
by the serialized tuple itself, which identifies keys exactly when the
serializations agree. -/
structure CacheKey where
  imageUrl : String
  prompt : String
  isDeveloperMode : Bool
  language : String
deriving Repr, DecidableEq

/-- Model of `getCacheKey` (OpenAIService.ts lines 352-361). -/
def getCacheKey (request : VisionAnalysisRequest) : CacheKey :=
  { imageUrl := request.imageUrl
    prompt := request.prompt.getD ""
    isDeveloperMode := request.isDeveloperMode
    language := request.language }

/-- The redis result cache, keyed as above. -/
def Cache : Type := List (CacheKey × VisionAnalysisResponse)

/-- Model of `getFromCache`: `redis.get` on the key. -/
def lookupCache (key : CacheKey) (cache : Cache) : Option VisionAnalysisResponse :=
  (List.find? (fun kv => kv.fst == key) cache).map (fun kv => kv.snd)

/-- Model of `saveToCache`: `redis.setex` overwrites the key; newest entry
shadows older ones under `lookupCache`. -/
def saveToCache (key : CacheKey) (data : VisionAnalysisResponse) (cache : Cache) : Cache :=
  (key, data) :: cache

/-- Model of `buildSystemPrompt` (OpenAIService.ts lines 178-221). -/
def buildSystemPrompt (request : VisionAnalysisRequest) : String :=
  let basePrompt := "You are an expert AI assistant that explains things clearly and accurately."
  if request.isDeveloperMode then
    basePrompt ++ "\n\nYou are in DEVELOPER MODE. When analyzing images:\n- If it\x27s code: explain the syntax, logic, algorithms, time complexity\n- If it\x27s an error: provide debugging steps and solutions\n- If it\x27s architecture: explain system design, data flow, trade-offs\n- If it\x27s documentation: summarize key technical points\n- Use technical terminology appropriate for experienced developers\n- Include code examples when relevant\n- Mention potential optimizations or best practices\n\nAlways structure your response as JSON:\n\x7b\n  \"explanation\": \"detailed technical explanation\",\n  \"category\": \"code|error|architecture|documentation|other\",\n  \"tags\": [\"relevant\", \"technical\", \"tags\"],\n  \"confidence\": 0.0-1.0\n\x7d"
  else
    basePrompt ++ "\n\nWhen analyzing images, provide clear, simple explanations that anyone can understand.\n\n- For educational content (homework, textbooks): break down step-by-step\n- For foreign text: translate and explain cultural context\n- For objects/plants/animals: identify and provide interesting facts\n- For instructions/manuals: simplify into easy steps\n- For diagrams: explain what it represents and how it works\n\nUse simple language. Avoid jargon. Be encouraging and helpful.\n\nAlways structure your response as JSON:\n\x7b\n  \"explanation\": \"clear, simple explanation in " ++ request.language ++ "\",\n  \"category\": \"education|translation|identification|instructions|other\",\n  \"tags\": [\"relevant\", \"tags\"],\n  \"confidence\": 0.0-1.0\n\x7d"

/-- Default user prompts of `buildUserPrompt` when no caller prompt is
supplied (or the supplied prompt is the empty string, which is falsy). -/
def defaultUserText (request : VisionAnalysisRequest) : String :=
  if request.isDeveloperMode then
    "Analyze this image from a technical/developer perspective and respond in JSON format."
  else
    "What is this? Please explain it clearly and respond in JSON format."

/-- Model of `buildUserPrompt` (OpenAIService.ts lines 226-236). -/
def buildUserPrompt (request : VisionAnalysisRequest) : String :=
  match request.prompt with
  | some p => if p ≠ "" then p ++ "\n\nPlease analyze this image and respond in JSON format." else defaultUserText request
  | none => defaultUserText request

/-- The fenced-block regular expression: first occurrence of the opening
token, then lazily up to the first subsequent closing token. -/
def matchFence (openTok : String) (s : String) : Option String :=
  match splitFirst openTok.data s.data with
  | none => none
  | some (_, rest) =>
    match splitFirst ("\n```").data rest with
    | none => none
    | some (content, _) => some ⟨content⟩

/-- Model of the two regular expressions of `parseResponse`: a
triple-backtick json block, else a bare triple-backtick block. -/
def extractFenced (s : String) : Option String :=
  (matchFence "```json\n" s).orElse (fun _ => matchFence "```\n" s)

/-- Shape returned by `parseResponse`. -/
structure ParsedAnalysis where
  explanation : String
  category : String
  tags : List String
  confidence : Rat
deriving Repr, DecidableEq

/-- Model of `parseResponse` (OpenAIService.ts lines 265-297), parameterized
by the external `JSON.parse` (`none` models a parse exception).  When the
chosen candidate string does not parse — or parses to JSON `null`, on which
the subsequent property access throws inside the same `try` — the catch
branch returns the raw reply as the explanation with category `other`, no
tags and confidence 0.7.  A successful parse reads `explanation` and
`category` with a `|| default` truthiness fallback, keeps `tags` only when it
is an array, and clamps a numeric `confidence` into [0, 1] (defaulting to
0.8).  The function is total: it never throws. -/
def parseResponse (parseJson : String → Option Json) (response : String) : ParsedAnalysis :=
  let jsonStr := (extractFenced response).getD response
  match parseJson jsonStr with
  | none =>
    { explanation := response, category := "other", tags := [], confidence := (7 : Rat)/10 }
  | some Json.null =>
    { explanation := response, category := "other", tags := [], confidence := (7 : Rat)/10 }
  | some parsed =>
    { explanation :=
        match jsGet parsed "explanation" with
        | some v => if jsTruthy v then jsToDisplay v else response
        | none => response
      category :=
        match jsGet parsed "category" with
        | some v => if jsTruthy v then jsToDisplay v else "other"
        | none => "other"
      tags :=
        match jsGet parsed "tags" with
        | some (Json.arr xs) => xs.map jsToDisplay
        | _ => []
      confidence :=
        match jsGet parsed "confidence" with
        | some (Json.num q) => max 0 (min 1 q)
        | _ => (8 : Rat)/10 }

/-- The primary completion call of `analyzeImage`: gpt-4-vision-preview,
1500 max tokens, temperature 0.7, mode-specific system prompt, image at high
detail. -/
def primaryCall (request : VisionAnalysisRequest) : ProviderCall :=
  { model := "gpt-4-vision-preview"
    maxTokens := 1500
    temperature := (7 : Rat)/10
    systemPrompt := some (buildSystemPrompt request)
    userText := buildUserPrompt request
    imageUrl := request.imageUrl
    detail := "high" }

/-- The completion call of `fallbackAnalysis`: no system prompt, 800 max
tokens, a fixed brief user prompt, image at low detail. -/
def fallbackCall (request : VisionAnalysisRequest) : ProviderCall :=
  { model := "gpt-4-vision-preview"
    maxTokens := 800
    temperature := (7 : Rat)/10
    systemPrompt := none
    userText := "Briefly explain what you see in this image."
    imageUrl := request.imageUrl
    detail := "low" }

/-- Fallback content default: `content || 'Unable to analyze image.'`
(the empty string is falsy). -/
def contentOrDefault (c : Completion) : String :=
  match c.content with
  | some s => if s ≠ "" then s else "Unable to analyze image."
  | none => "Unable to analyze image."

/-- Result of one `analyzeImage` run: the returned-or-thrown value, the cache
afterwards, and the external completion calls that were made. -/
structure AnalyzeOutcome where
  result : Except AnalyzeError VisionAnalysisResponse
  cache : Cache
  calls : List ProviderCall

/-- Model of `fallbackAnalysis` (OpenAIService.ts lines 302-347): a single
reduced-fidelity retry whose success yields category `other`, no tags,
confidence 0.5, and whose failure throws `Failed to analyze image`.  Nothing
is written to the cache on this path. -/
def fallbackAnalysis (provider : ProviderCall → Except ProviderError Completion)
    (request : VisionAnalysisRequest) (fbElapsedMs : Nat) (cache : Cache)
    (prior : List ProviderCall) : AnalyzeOutcome :=
  let call := fallbackCall request
  match provider call with
  | .error _ => ⟨.error .fallbackFailed, cache, prior ++ [call]⟩
  | .ok completion =>
    ⟨.ok { explanation := contentOrDefault completion
           category := "other"
           tags := []
           confidence := (1 : Rat)/2
           tokensUsed := completion.totalTokens.getD 0
           processingTimeMs := fbElapsedMs }
      , cache, prior ++ [call]⟩

/-- Model of `analyzeImage` (OpenAIService.ts lines 40-131).  `elapsedMs` is
the wall-clock duration `Date.now() - startTime` of this call (the cache-hit
return overwrites the cached `processingTimeMs` with it) and `fbElapsedMs`
the duration measured inside `fallbackAnalysis`.  On a cache miss the primary
call is made; a falsy content throws the empty-response error; a
provider-side `APIError` with status 400 triggers the single fallback retry,
every other provider failure is rethrown to the caller. -/
def analyzeImage (provider : ProviderCall → Except ProviderError Completion)
    (parseJson : String → Option Json) (request : VisionAnalysisRequest)
    (elapsedMs fbElapsedMs : Nat) (cache : Cache) : AnalyzeOutcome :=
  let key := getCacheKey request
  match lookupCache key cache with
  | some cached => ⟨.ok { cached with processingTimeMs := elapsedMs }, cache, []⟩
  | none =>
    let call := primaryCall request
    match provider call with
    | .error e =>
      if isBadRequest e then fallbackAnalysis provider request fbElapsedMs cache [call]
      else ⟨.error (.provider e), cache, [call]⟩
    | .ok completion =>
      match completion.content with
      | none => ⟨.error .emptyResponse, cache, [call]⟩
      | some response =>
        if response = "" then ⟨.error .emptyResponse, cache, [call]⟩
        else
          let parsed := parseResponse parseJson response
          let result : VisionAnalysisResponse :=
            { explanation := parsed.explanation
              category := parsed.category
              tags := parsed.tags
              confidence := parsed.confidence
              tokensUsed := completion.totalTokens.getD 0
              processingTimeMs := elapsedMs }
          ⟨.ok result, saveToCache key result cache, [call]⟩

end OpenAIService

/- ----------------------------------------------------------------- -/
/- Database state shared by the services                             -/
/- ----------------------------------------------------------------- -/

/-- A row of the `explanation` table. -/
structure ExplanationRecord where
  id : Nat
  user_id : String
  image_url : String
  image_thumbnail_url : String
  image_hash : String
  prompt_text : Option String
  explanation_text : String
  explanation_model : String
  processing_time_ms : Nat
  confidence_score : Rat
  category : String
  tags : List String
  language : String
  is_developer_mode : Bool
  is_favorited : Bool
  view_count : Nat
  created_at : Nat
  deleted_at : Option Nat
deriving Repr, DecidableEq

/-- A row of the `message` table. -/
structure MessageRecord where
  id : Nat
  explanation_id : Nat
  user_id : String
  role : String
  content : String
  model : Option String
  tokens_used : Option Nat
  created_at : Nat
deriving Repr, DecidableEq

/-- The usage-relevant columns of the `user` table. -/
structure UserRecord where
  id : String
  subscription_tier : String
  daily_usage_count : Nat
  daily_usage_reset_at : Option Nat
  total_explanations : Nat
deriving Repr, DecidableEq

/-- A row of the `usage_log` table. -/
structure UsageLog where
  user_id : String
  action : String
  resource_id : Nat
  tokens_used : Nat
  cost_usd : Rat
deriving Repr, DecidableEq

/-- The mutable state the services act on: the prisma tables, the log of
storage-object deletions requested from `StorageService.deleteImage`, and the
id sequence. -/
structure DB where
  explanations : List ExplanationRecord
  messages : List MessageRecord
  users : List UserRecord
  usageLogs : List UsageLog
  storageDeletes : List String
  nextId : Nat
deriving Repr, DecidableEq

/-- Errors thrown by ExplanationService and ChatService. -/
inductive ServiceError : Type
  | notFound
  | userNotFound
  | quotaExceeded
  | analysisFailed (e : OpenAIService.AnalyzeError)
deriving Repr, DecidableEq

/- ----------------------------------------------------------------- -/
/- ExplanationService (src/services/explanation/ExplanationService.ts) -/
/- ----------------------------------------------------------------- -/

namespace ExplanationService

/-- Input of `ExplanationService.create` (interface
`CreateExplanationRequest`). -/
structure CreateExplanationRequest where
  userId : String
  imageUrl : String
  thumbnailUrl : String
  imageHash : String
  prompt : Option String
  isDeveloperMode : Bool
  language : Option String
deriving Repr, DecidableEq

/-- Response shape of the service (interface `ExplanationResponse`). -/
structure ExplanationResponse where
  id : Nat
  userId : String
  imageUrl : String
  thumbnailUrl : String
  explanation : String
  category : String
  tags : List String
  confidence : Rat
  tokensUsed : Nat
  processingTimeMs : Nat
  isFavorited : Bool
  createdAt : Nat
deriving Repr, DecidableEq

/-- Model of `toResponse` (ExplanationService.ts lines 342-357); the
`|| fallback` coalescing of the source is the identity on the non-null
columns of this model, and `tokensUsed` is fixed to 0 by the source. -/
def toResponse (explanation : ExplanationRecord) : ExplanationResponse :=
  { id := explanation.id
    userId := explanation.user_id
    imageUrl := explanation.image_url
    thumbnailUrl := explanation.image_thumbnail_url
    explanation := explanation.explanation_text
    category := explanation.category
    tags := explanation.tags
    confidence := explanation.confidence_score
    tokensUsed := 0
    processingTimeMs := explanation.processing_time_ms
    isFavorited := explanation.is_favorited
    createdAt := explanation.created_at }

/-- Accumulator step keeping the record with the larger `created_at`. -/
def latestStep (acc : Option ExplanationRecord) (r : ExplanationRecord) : Option ExplanationRecord :=
  match acc with
  | none => some r
  | some a => if r.created_at > a.created_at then some r else acc

/-- Latest element by `created_at` (prisma `orderBy: created_at desc` then
`findFirst`). -/
def latestBy (l : List ExplanationRecord) : Option ExplanationRecord :=
  l.foldl latestStep none

/-- The `where` condition of `findDuplicate`: owner, hash, live. -/
def dupPred (userId imageHash : String) (r : ExplanationRecord) : Bool :=
  r.user_id == userId && r.image_hash == imageHash && r.deleted_at.isNone

/-- Model of `findDuplicate` (ExplanationService.ts lines 249-261): the most
recent live record of the owner with the hash; soft-deleted records are
filtered out by `deleted_at: null`. -/
def findDuplicate (userId : String) (imageHash : String) (db : DB) : Option ExplanationRecord :=
  latestBy (db.explanations.filter (dupPred userId imageHash))

/-- The tier-to-limit table of `checkUsageLimit`; an unknown tier falls back
to the free limit (`limits[tier] || limits.free`). -/
def tierLimit (tier : String) : Nat :=
  if tier = "free" then 10
  else if tier = "pro" then 1000
  else if tier = "developer" then 10000
  else 10

/-- The counter-reset update of `checkUsageLimit`: count to 0, window to
`now + 24h` (86400000 ms). -/
def resetDailyUsage (userId : String) (now : Nat) (db : DB) : DB :=
  { db with users := db.users.map (fun u =>
      if u.id == userId then
        { u with daily_usage_count := 0, daily_usage_reset_at := some (now + 86400000) }
      else u) }

/-- Model of `checkUsageLimit` (ExplanationService.ts lines 266-305).  A
missing or expired window (`!resetAt || resetAt < now`) resets the counter
and returns without evaluating the limit; otherwise a count at or above the
tier limit throws, and a count below it passes without touching state. -/
def checkUsageLimit (userId : String) (now : Nat) (db : DB) : Except ServiceError DB :=
  match db.users.find? (fun u => u.id == userId) with
  | none => .error .userNotFound
  | some user =>
    match user.daily_usage_reset_at with
    | none => .ok (resetDailyUsage userId now db)
    | some resetAt =>
      if resetAt < now then .ok (resetDailyUsage userId now db)
      else if user.daily_usage_count ≥ tierLimit user.subscription_tier then
        .error .quotaExceeded
      else .ok db

/-- Model of `logUsage` (ExplanationService.ts lines 310-324). -/
def logUsage (userId : String) (resourceId : Nat) (tokensUsed : Nat) (db : DB) : DB :=
  { db with usageLogs := db.usageLogs ++
      [{ user_id := userId
         action := "explanation"
         resource_id := resourceId
         tokens_used := tokensUsed
         cost_usd := (tokensUsed : Rat) * ((1 : Rat)/100000) }] }

/-- Model of `updateUserStats` (ExplanationService.ts lines 329-337). -/
def updateUserStats (userId : String) (db : DB) : DB :=
  { db with users := db.users.map (fun u =>
      if u.id == userId then
        { u with daily_usage_count := u.daily_usage_count + 1
                 total_explanations := u.total_explanations + 1 }
      else u) }

/-- The `language: request.language || 'en'` coalescing (the empty string is
falsy). -/
def langOf (request : CreateExplanationRequest) : String :=
  match request.language with
  | some l => if l ≠ "" then l else "en"
  | none => "en"

/-- Result of one `create` run: the returned-or-thrown value, the database
afterwards, and how many times `openAI.analyzeImage` was invoked. -/
structure CreateOutcome where
  result : Except ServiceError ExplanationResponse
  db : DB
  modelCalls : Nat
deriving Repr

/-- The row inserted by `prisma.explanation.create` inside `create`: all
derived fields of the analysis plus the request fields, with the database
defaults (`view_count` 0, not favorited, live). -/
def newRecord (a : VisionAnalysisResponse) (request : CreateExplanationRequest)
    (now : Nat) (db1 : DB) : ExplanationRecord :=
  { id := db1.nextId
    user_id := request.userId
    image_url := request.imageUrl
    image_thumbnail_url := request.thumbnailUrl
    image_hash := request.imageHash
    prompt_text := request.prompt
    explanation_text := a.explanation
    explanation_model := "gpt-4-vision-preview"
    processing_time_ms := a.processingTimeMs
    confidence_score := a.confidence
    category := a.category
    tags := a.tags
    language := langOf request
    is_developer_mode := request.isDeveloperMode
    is_favorited := false
    view_count := 0
    created_at := now
    deleted_at := none }

/-- Append the freshly inserted row and advance the id sequence. -/
def insertRecord (record : ExplanationRecord) (db1 : DB) : DB :=
  { db1 with explanations := db1.explanations ++ [record], nextId := db1.nextId + 1 }

/-- Model of `create` (ExplanationService.ts lines 48-111).  The external
analyzer `this.openAI.analyzeImage(...)` is injected as the outcome
`analysis` it would produce, and `modelCalls` counts how many times it is
consulted.  A duplicate short-circuits before the quota check; the quota
check precedes the analyzer; the record insert precedes `logUsage` and the
`updateUserStats` counter increment. -/
def create (analysis : Except OpenAIService.AnalyzeError VisionAnalysisResponse)
    (request : CreateExplanationRequest) (now : Nat) (db : DB) : CreateOutcome :=
  match findDuplicate request.userId request.imageHash db with
  | some existing => ⟨.ok (toResponse existing), db, 0⟩
  | none =>
    match checkUsageLimit request.userId now db with
    | .error e => ⟨.error e, db, 0⟩
    | .ok db1 =>
      match analysis with
      | .error e => ⟨.error (.analysisFailed e), db1, 1⟩
      | .ok a =>
        let record := newRecord a request now db1
        ⟨.ok (toResponse record),
          updateUserStats request.userId
            (logUsage request.userId record.id a.tokensUsed (insertRecord record db1)), 1⟩

/-- Model of `getById` (ExplanationService.ts lines 116-136): only a live
owned record is found (`deleted_at: null`), a miss returns null without side
effects, a hit increments the view counter and returns the response built
from the fetched row. -/
def getById (id : Nat) (userId : String) (db : DB) : Option ExplanationResponse × DB :=
  match db.explanations.find?
      (fun r => r.id == id && r.user_id == userId && r.deleted_at.isNone) with
  | none => (none, db)
  | some explanation =>
    (some (toResponse explanation),
      { db with explanations := db.explanations.map (fun r =>
          if r.id == id then { r with view_count := r.view_count + 1 } else r) })

/-- Parameters of `list`. -/
structure ListParams where
  userId : String
  page : Nat
  limit : Nat
  category : Option String
  search : Option String
  favoritesOnly : Bool
deriving Repr, DecidableEq

/-- Paginated result of `list`. -/
structure ListResult where
  data : List ExplanationResponse
  total : Nat
  page : Nat
  limit : Nat
  totalPages : Nat
deriving Repr, DecidableEq

/-- The `search` disjunction of `list`: case-insensitive containment in the
explanation text, or exact membership of the lowercased search term in the
tag list. -/
def matchesSearch (search : String) (r : ExplanationRecord) : Bool :=
  containsSub (strLower search) (strLower r.explanation_text)
    || r.tags.contains (strLower search)

/-- The prisma `where` of `list`: owner, live, optional category, optional
favorites flag, optional search (an empty optional string is falsy in the
source and adds no condition). -/
def listWhere (p : ListParams) (r : ExplanationRecord) : Bool :=
  r.user_id == p.userId && r.deleted_at.isNone
    && (match p.category with
        | some c => if c ≠ "" then r.category == c else true
        | none => true)
    && (if p.favoritesOnly then r.is_favorited else true)
    && (match p.search with
        | some s => if s ≠ "" then matchesSearch s r else true
        | none => true)

/-- Ceiling division for `Math.ceil(total / limit)`. -/
def ceilDiv (total limit : Nat) : Nat :=
  if limit = 0 then 0 else (total + limit - 1) / limit

/-- Model of `list` (ExplanationService.ts lines 141-194): filtered records
ordered newest-first, offset pagination with 1-indexed `page`, and the total
count of the same filter. -/
def list (p : ListParams) (db : DB) : ListResult :=
  let filtered := db.explanations.filter (listWhere p)
  let sorted := sortDescBy (fun r => r.created_at) filtered
  { data := ((sorted.drop ((p.page - 1) * p.limit)).take p.limit).map toResponse
    total := filtered.length
    page := p.page
    limit := p.limit
    totalPages := ceilDiv filtered.length p.limit }

/-- Model of `toggleFavorite` (ExplanationService.ts lines 199-217).  The
ownership lookup is `{ id, user_id: userId }` — it does not filter on
`deleted_at` — and a hit flips and returns the flag. -/
def toggleFavorite (id : Nat) (userId : String) (db : DB) : Except ServiceError Bool × DB :=
  match db.explanations.find? (fun r => r.id == id && r.user_id == userId) with
  | none => (.error .notFound, db)
  | some explanation =>
    let newStatus := !explanation.is_favorited
    (.ok newStatus,
      { db with explanations := db.explanations.map (fun r =>
          if r.id == id then { r with is_favorited := newStatus } else r) })

/-- Model of `delete` (ExplanationService.ts lines 222-244).  The ownership
lookup again does not filter on `deleted_at`; a hit sets the deletion
timestamp and requests storage deletion of the image and, when truthy, the
thumbnail. -/
def delete (id : Nat) (userId : String) (now : Nat) (db : DB) : Except ServiceError Unit × DB :=
  match db.explanations.find? (fun r => r.id == id && r.user_id == userId) with
  | none => (.error .notFound, db)
  | some explanation =>
    let db1 : DB :=
      { db with explanations := db.explanations.map (fun r =>
          if r.id == id then { r with deleted_at := some now } else r) }
    (.ok (),
      { db1 with storageDeletes := db1.storageDeletes ++ [explanation.image_url] ++
          (if explanation.image_thumbnail_url ≠ "" then [explanation.image_thumbnail_url] else []) })

end ExplanationService

/- ----------------------------------------------------------------- -/
/- ChatService (src/services/chat/ChatService.ts)                    -/
/- ----------------------------------------------------------------- -/

namespace ChatService

/-- The context-window constant (`MAX_HISTORY`). -/
def MAX_HISTORY : Nat := 10

/-- Input of `sendMessage` (interface `SendMessageRequest`). -/
structure SendMessageRequest where
  explanationId : Nat
  userId : String
  message : String
deriving Repr, DecidableEq

/-- Response shape of the service (interface `ChatMessage`). -/
structure ChatMessage where
  id : Nat
  role : String
  content : String
  createdAt : Nat
deriving Repr, DecidableEq

/-- Model of `getHistory` (ChatService.ts lines 121-134): messages of the
explanation ordered by `created_at` ascending, with `take: MAX_HISTORY`
applied — i.e. the first ten in ascending order. -/
def getHistory (explanationId : Nat) (db : DB) : List ChatMessage :=
  ((sortAscBy (fun m => m.created_at)
      (db.messages.filter (fun m => m.explanation_id == explanationId))).take MAX_HISTORY).map
    (fun m => { id := m.id, role := m.role, content := m.content, createdAt := m.created_at })

/-- Result of one `sendMessage` run: the returned-or-thrown value, the
database afterwards, and the (role, content) message list handed to
`openAI.chat` (empty when the model was never called). -/
structure SendOutcome where
  result : Except ServiceError ChatMessage
  db : DB
  sent : List (String × String)
deriving Repr

/-- Model of `sendMessage` (ChatService.ts lines 30-116).  Ownership of the
parent explanation is checked first (without a `deleted_at` filter); the
history fetched by `getHistory` plus the new user message is what goes to the
model; the user message is persisted before the model call, so it survives a
model failure; the assistant reply `this.openAI.chat(...)` is injected as the
outcome `chatReply` it would produce (already an error when the model reply
was empty). -/
def sendMessage (chatReply : Except OpenAIService.AnalyzeError (String × Nat))
    (request : SendMessageRequest) (now : Nat) (db : DB) : SendOutcome :=
  match db.explanations.find?
      (fun r => r.id == request.explanationId && r.user_id == request.userId) with
  | none => ⟨.error .notFound, db, []⟩
  | some _explanation =>
    let history := getHistory request.explanationId db
    let userMessage : MessageRecord :=
      { id := db.nextId
        explanation_id := request.explanationId
        user_id := request.userId
        role := "user"
        content := request.message
        model := none
        tokens_used := none
        created_at := now }
    let db1 : DB := { db with messages := db.messages ++ [userMessage], nextId := db.nextId + 1 }
    let sent := history.map (fun m => (m.role, m.content)) ++ [("user", request.message)]
    match chatReply with
    | .error e => ⟨.error (.analysisFailed e), db1, sent⟩
    | .ok (response, tokensUsed) =>
      let assistantMessage : MessageRecord :=
        { id := db1.nextId
          explanation_id := request.explanationId
          user_id := request.userId
          role := "assistant"
          content := response
          model := some "gpt-4-turbo-preview"
          tokens_used := some tokensUsed
          created_at := now + 1 }
      let db2 : DB :=
        { db1 with messages := db1.messages ++ [assistantMessage], nextId := db1.nextId + 1 }
      let db3 : DB :=
        { db2 with usageLogs := db2.usageLogs ++
            [{ user_id := request.userId
               action := "chat_message"
               resource_id := request.explanationId
               tokens_used := tokensUsed
               cost_usd := (tokensUsed : Rat) * ((1 : Rat)/100000) }] }
      ⟨.ok { id := assistantMessage.id
             role := "assistant"
             content := assistantMessage.content
             createdAt := assistantMessage.created_at }
        , db3, sent⟩

end ChatService

/- ----------------------------------------------------------------- -/
/- Backend StorageService                                            -/
/- (explain-anything-backend/src/services/storage/StorageService.ts) -/
/- ----------------------------------------------------------------- -/

/-- Raw request bytes. -/
def Bytes : Type := List Nat

namespace StorageService

/-- The size bound of the backend storage service (10 MB). -/
def MAX_FILE_SIZE : Nat := 10 * 1024 * 1024

/-- The accepted mime types. -/
def ALLOWED_TYPES : List String := ["image/jpeg", "image/png", "image/webp"]

/-- Result shape of `uploadImage`. -/
structure UploadResult where
  url : String
  thumbnail : String
  hash : String
deriving Repr, DecidableEq

/-- Errors thrown by `uploadImage`. -/
inductive UploadError : Type
  | invalidFileType
  | fileTooLarge
  | uploadFailed
deriving Repr, DecidableEq

/-- Result of one `uploadImage` run: the returned-or-thrown value and the
(path, bytes) objects pushed to supabase storage. -/
structure UploadOutcome where
  result : Except UploadError UploadResult
  uploads : List (String × Bytes)

/-- Model of `findByHash` (backend StorageService.ts lines 81-96): the
lookup is `{ image_hash: hash, user_id: userId }` — it does not filter on
`deleted_at`, so soft-deleted explanations are matched too. -/
def findByHash (hash : String) (userId : String) (db : DB) : Option UploadResult :=
  match db.explanations.find? (fun r => r.image_hash == hash && r.user_id == userId) with
  | some existing =>
    some { url := existing.image_url
           thumbnail := existing.image_thumbnail_url
           hash := existing.image_hash }
  | none => none

/-- Model of `uploadImage` (backend StorageService.ts lines 10-79).  The
`sharp` processing pipeline (`processImage`), the thumbnail derivation
(`thumbGen`), the SHA-256 hex digest (`sha256hex`), the supabase upload
success predicate (`storeOk`) and the public-URL issuance (`publicUrl`) are
injected external collaborators.  After validation, processing and hashing, a
hash hit for the user short-circuits with the stored URLs and uploads
nothing; otherwise both objects are uploaded and a null upload result
throws. -/
def uploadImage (processImage thumbGen : Bytes → Bytes) (sha256hex : Bytes → String)
    (storeOk : String → Bool) (publicUrl : String → String)
    (file : Bytes) (userId : String) (mimeType : String) (now : Nat) (db : DB) : UploadOutcome :=
  if ¬ (ALLOWED_TYPES.contains mimeType) then ⟨.error .invalidFileType, []⟩
  else if file.length > MAX_FILE_SIZE then ⟨.error .fileTooLarge, []⟩
  else
    let processedImage := processImage file
    let thumbnail := thumbGen processedImage
    let hash := sha256hex processedImage
    match findByHash hash userId db with
    | some existing => ⟨.ok existing, []⟩
    | none =>
      let filename := userId ++ "/" ++ toString now ++ "-" ++ hash.take 8 ++ ".jpg"
      let thumbnailFilename :=
        userId ++ "/thumbnails/" ++ toString now ++ "-" ++ hash.take 8 ++ ".jpg"
      let uploads := [(filename, processedImage), (thumbnailFilename, thumbnail)]
      if storeOk filename && storeOk thumbnailFilename then
        ⟨.ok { url := publicUrl filename, thumbnail := publicUrl thumbnailFilename, hash := hash }
          , uploads⟩
      else ⟨.error .uploadFailed, uploads⟩

end StorageService

/- ----------------------------------------------------------------- -/
/- Concrete sample states used by the closed instantiations below    -/
/- ----------------------------------------------------------------- -/

/-- A free-tier user with an unexpired daily window and no usage yet. -/
def sampleUser : UserRecord :=
  { id := "u1"
    subscription_tier := "free"
    daily_usage_count := 0
    daily_usage_reset_at := some 1000
    total_explanations := 0 }

/-- The same user with the daily counter already at the free limit. -/
def sampleUserAt10 : UserRecord :=
  { sampleUser with daily_usage_count := 10 }

/-- An empty store with `sampleUser`. -/
def sampleDb : DB :=
  { explanations := []
    messages := []
    users := [sampleUser]
    usageLogs := []
    storageDeletes := []
    nextId := 1 }

/-- An empty store with the at-limit user. -/
def sampleDbAt10 : DB :=
  { sampleDb with users := [sampleUserAt10] }

/-- A successful analyzer outcome. -/
def sampleAnalysis : VisionAnalysisResponse :=
  { explanation := "a cat"
    category := "identification"
    tags := ["cat"]
    confidence := (9 : Rat)/10
    tokensUsed := 42
    processingTimeMs := 500 }

/-- A creation request of `sampleUser` for hash h1. -/
def sampleReq : ExplanationService.CreateExplanationRequest :=
  { userId := "u1"
    imageUrl := "http://img"
    thumbnailUrl := "http://thumb"
    imageHash := "h1"
    prompt := none
    isDeveloperMode := false
    language := none }

/-- The response the first successful creation from `sampleDb` returns. -/
def sampleResp : ExplanationService.ExplanationResponse :=
  { id := 1
    userId := "u1"
    imageUrl := "http://img"
    thumbnailUrl := "http://thumb"
    explanation := "a cat"
    category := "identification"
    tags := ["cat"]
    confidence := (9 : Rat)/10
    tokensUsed := 0
    processingTimeMs := 500
    isFavorited := false
    createdAt := 100 }

/-- A soft-deleted explanation of user u with hash h. -/
def sampleDeleted : ExplanationRecord :=
  { id := 1
    user_id := "u"
    image_url := "iu"
    image_thumbnail_url := "tu"
    image_hash := "h"
    prompt_text := none
    explanation_text := "old text"
    explanation_model := "gpt-4-vision-preview"
    processing_time_ms := 5
    confidence_score := (1 : Rat)/2
    category := "other"
    tags := []
    language := "en"
    is_developer_mode := false
    is_favorited := false
    view_count := 0
    created_at := 10
    deleted_at := some 50 }

/-- A store holding only the soft-deleted record. -/
def sampleDbDeleted : DB :=
  { explanations := [sampleDeleted]
    messages := []
    users := []
    usageLogs := []
    storageDeletes := []
    nextId := 2 }

/-- A provider that always answers with a plain-text reply. -/
def c4prov : OpenAIService.ProviderCall → Except OpenAIService.ProviderError OpenAIService.Completion :=
  fun _ => .ok { content := some "hello world", totalTokens := some 42 }

/-- An analyze request with no caller prompt. -/
def c4req : VisionAnalysisRequest :=
  { imageUrl := "img", prompt := none, isDeveloperMode := false, language := "en" }

/-- First `analyzeImage` run (cache miss, 100 ms elapsed). -/
def c4o1 : OpenAIService.AnalyzeOutcome :=
  OpenAIService.analyzeImage c4prov (fun _ => none) c4req 100 0 []

/-- Second identical run against the first run's cache (0 ms elapsed). -/
def c4o2 : OpenAIService.AnalyzeOutcome :=
  OpenAIService.analyzeImage c4prov (fun _ => none) c4req 0 0 c4o1.cache

/-- The payload of the first run. -/
def c4r1 : VisionAnalysisResponse :=
  { explanation := "hello world"
    category := "other"
    tags := []
    confidence := (7 : Rat)/10
    tokensUsed := 42
    processingTimeMs := 100 }

/-- A provider rejecting the primary call with a 400 `APIError` and
answering the reduced fallback call. -/
def c6prov : OpenAIService.ProviderCall → Except OpenAIService.ProviderError OpenAIService.Completion :=
  fun call =>
    if call.maxTokens == 1500 then .error (.apiError 400)
    else .ok { content := some "a cat", totalTokens := some 5 }

/-- A provider failing with a connection error (not a 400). -/
def c6provDown : OpenAIService.ProviderCall → Except OpenAIService.ProviderError OpenAIService.Completion :=
  fun _ => .error (.connection "timeout")

/-- A live explanation that chat messages attach to. -/
def c8exp : ExplanationRecord :=
  { sampleDeleted with id := 3, user_id := "u8", deleted_at := none }

/-- A stored chat message of explanation 3 at time i. -/
def mkMsg (i : Nat) (role content : String) : MessageRecord :=
  { id := 20 + i
    explanation_id := 3
    user_id := "u8"
    role := role
    content := content
    model := none
    tokens_used := none
    created_at := i }

/-- Twelve stored messages, oldest first. -/
def c8msgs : List MessageRecord :=
  [mkMsg 1 "user" "m01", mkMsg 2 "assistant" "m02", mkMsg 3 "user" "m03",
   mkMsg 4 "assistant" "m04", mkMsg 5 "user" "m05", mkMsg 6 "assistant" "m06",
   mkMsg 7 "user" "m07", mkMsg 8 "assistant" "m08", mkMsg 9 "user" "m09",
   mkMsg 10 "assistant" "m10", mkMsg 11 "user" "m11", mkMsg 12 "assistant" "m12"]

/-- The store for the 12-message chat scenario. -/
def c8db : DB :=
  { explanations := [c8exp]
    messages := c8msgs
    users := []
    usageLogs := []
    storageDeletes := []
    nextId := 100 }

/-- One chat turn on the 12-message history. -/
def c8out : ChatService.SendOutcome :=
  ChatService.sendMessage (.ok ("reply", 7)) ⟨3, "u8", "q"⟩ 50 c8db

/- ----------------------------------------------------------------- -/
/- Supporting lemmas                                                 -/
/- ----------------------------------------------------------------- -/

namespace ExplanationService

theorem foldl_latestStep_some (xs : List ExplanationRecord) :
    ∀ a : ExplanationRecord, ∃ e, xs.foldl latestStep (some a) = some e := by
  induction xs with
  | nil => intro a; exact ⟨a, rfl⟩
  | cons y ys ih =>
    intro a
    rw [List.foldl_cons]
    rw [show latestStep (some a) y = if y.created_at > a.created_at then some y else some a
        from rfl]
    by_cases hgt : y.created_at > a.created_at
    · rw [if_pos hgt]; exact ih y
    · rw [if_neg hgt]; exact ih a

theorem latestBy_eq_none {l : List ExplanationRecord} (h : latestBy l = none) : l = [] := by
  cases l with
  | nil => rfl
  | cons x xs =>
    exfalso
    unfold latestBy at h
    rw [List.foldl_cons, show latestStep none x = some x from rfl] at h
    obtain ⟨e, he⟩ := foldl_latestStep_some xs x
    rw [he] at h
    cases h

theorem foldl_latestStep_mem (l : List ExplanationRecord) :
    ∀ acc e, l.foldl latestStep acc = some e → acc = some e ∨ e ∈ l := by
  induction l with
  | nil => intro acc e h; exact Or.inl h
  | cons x xs ih =>
    intro acc e h
    rw [List.foldl_cons] at h
    rcases ih (latestStep acc x) e h with h' | h'
    · cases acc with
      | none =>
        rw [show latestStep none x = some x from rfl] at h'
        right
        rw [← Option.some.inj h']
        exact List.mem_cons_self x xs
      | some a =>
        rw [show latestStep (some a) x
            = if x.created_at > a.created_at then some x else some a from rfl] at h'
        by_cases hgt : x.created_at > a.created_at
        · rw [if_pos hgt] at h'
          right
          rw [← Option.some.inj h']
          exact List.mem_cons_self x xs
        · rw [if_neg hgt] at h'
          exact Or.inl h'
    · exact Or.inr (List.mem_cons_of_mem x h')

theorem latestBy_mem {l : List ExplanationRecord} {e : ExplanationRecord}
    (h : latestBy l = some e) : e ∈ l := by
  rcases foldl_latestStep_mem l none e h with h' | h'
  · cases h'
  · exact h'

theorem checkUsageLimit_ok_shape (userId : String) (now : Nat) (db db1 : DB)
    (h : checkUsageLimit userId now db = .ok db1) :
    db1 = db ∨ db1 = resetDailyUsage userId now db := by
  unfold checkUsageLimit at h
  split at h
  · cases h
  · split at h
    · exact Or.inr (Except.ok.inj h).symm
    · split at h
      · exact Or.inr (Except.ok.inj h).symm
      · split at h
        · cases h
        · exact Or.inl (Except.ok.inj h).symm

theorem checkUsageLimit_ok_explanations (userId : String) (now : Nat) (db db1 : DB)
    (h : checkUsageLimit userId now db = .ok db1) :
    db1.explanations = db.explanations := by
  rcases checkUsageLimit_ok_shape userId now db db1 h with h' | h'
  · rw [h']
  · rw [h']; rfl

theorem create_eq_of_dup (analysis : Except OpenAIService.AnalyzeError VisionAnalysisResponse)
    (request : CreateExplanationRequest) (now : Nat) (db : DB) (e : ExplanationRecord)
    (h : findDuplicate request.userId request.imageHash db = some e) :
    create analysis request now db = ⟨.ok (toResponse e), db, 0⟩ := by
  unfold create
  rw [h]

theorem create_eq_of_checkErr (analysis : Except OpenAIService.AnalyzeError VisionAnalysisResponse)
    (request : CreateExplanationRequest) (now : Nat) (db : DB) (err : ServiceError)
    (hnone : findDuplicate request.userId request.imageHash db = none)
    (hc : checkUsageLimit request.userId now db = .error err) :
    create analysis request now db = ⟨.error err, db, 0⟩ := by
  unfold create
  rw [hnone, hc]

theorem create_eq_of_analysisErr (e : OpenAIService.AnalyzeError)
    (request : CreateExplanationRequest) (now : Nat) (db db1 : DB)
    (hnone : findDuplicate request.userId request.imageHash db = none)
    (hc : checkUsageLimit request.userId now db = .ok db1) :
    create (.error e) request now db = ⟨.error (.analysisFailed e), db1, 1⟩ := by
  unfold create
  rw [hnone, hc]

theorem create_eq_of_ok (a : VisionAnalysisResponse)
    (request : CreateExplanationRequest) (now : Nat) (db db1 : DB)
    (hnone : findDuplicate request.userId request.imageHash db = none)
    (hc : checkUsageLimit request.userId now db = .ok db1) :
    create (.ok a) request now db
      = ⟨.ok (toResponse (newRecord a request now db1)),
          updateUserStats request.userId
            (logUsage request.userId (newRecord a request now db1).id a.tokensUsed
              (insertRecord (newRecord a request now db1) db1)), 1⟩ := by
  unfold create
  rw [hnone, hc]

end ExplanationService

open ExplanationService in
/-- Claim C1: when a live (non-soft-deleted) explanation of the same owner
with the same content hash exists, `create` returns it unchanged — no quota
check, no analyzer invocation, no insert, no state mutation at all (in
particular the view counter); hence after a first successful `create`, a
second `create` with the identical request returns the same response (same
id), leaves the state untouched, and the analyzer was invoked exactly once
in total. -/
theorem c1_dedup_short_circuit :
    (∀ analysis request now db e,
        findDuplicate request.userId request.imageHash db = some e →
        create analysis request now db = ⟨.ok (toResponse e), db, 0⟩)
    ∧ (∀ a request now db resp,
        findDuplicate request.userId request.imageHash db = none →
        (create (.ok a) request now db).result = .ok resp →
        (create (.ok a) request now db).modelCalls = 1
        ∧ ∀ analysis2 now2,
            create analysis2 request now2 (create (.ok a) request now db).db
              = ⟨.ok resp, (create (.ok a) request now db).db, 0⟩) := by
  constructor
  · exact create_eq_of_dup
  · intro a request now db resp hnone hok
    have hfilter : db.explanations.filter (dupPred request.userId request.imageHash) = [] :=
      latestBy_eq_none hnone
    cases hc : checkUsageLimit request.userId now db with
    | error err =>
      rw [create_eq_of_checkErr (.ok a) request now db err hnone hc] at hok
      cases hok
    | ok db1 =>
      rw [create_eq_of_ok a request now db db1 hnone hc] at hok ⊢
      have hresp := Except.ok.inj hok
      refine ⟨rfl, ?_⟩
      intro analysis2 now2
      have hdup2 : findDuplicate request.userId request.imageHash
          (updateUserStats request.userId
            (logUsage request.userId (newRecord a request now db1).id a.tokensUsed
              (insertRecord (newRecord a request now db1) db1)))
          = some (newRecord a request now db1) := by
        unfold findDuplicate
        have hexp : (updateUserStats request.userId
            (logUsage request.userId (newRecord a request now db1).id a.tokensUsed
              (insertRecord (newRecord a request now db1) db1))).explanations
            = db1.explanations ++ [newRecord a request now db1] := rfl
        rw [hexp, List.filter_append,
            checkUsageLimit_ok_explanations request.userId now db db1 hc, hfilter]
        have hmatch : dupPred request.userId request.imageHash (newRecord a request now db1)
            = true := by
          simp [dupPred, newRecord]
        simp only [List.nil_append, List.filter_cons, hmatch, if_true, List.filter_nil]
        rfl
      rw [create_eq_of_dup analysis2 request now2 _ _ hdup2]
      dsimp only
      rw [hresp]

open ExplanationService in
/-- Claim C2: for a free-tier user whose daily window is unexpired, a count
at or above the limit of 10 makes `create` fail with the quota error before
the analyzer is consulted and with the state untouched; below the limit, a
failed analysis leaves the state (in particular the daily counter) untouched
— the increment only happens after the record is persisted — so an immediate
retry with a successful analysis goes through. -/
theorem c2_quota_check_and_late_commit :
    ∀ request now db user,
      findDuplicate request.userId request.imageHash db = none →
      db.users.find? (fun u => u.id == request.userId) = some user →
      user.subscription_tier = "free" →
      (∃ r, user.daily_usage_reset_at = some r ∧ ¬ r < now) →
      (user.daily_usage_count ≥ 10 →
        ∀ analysis, create analysis request now db = ⟨.error .quotaExceeded, db, 0⟩)
      ∧ (user.daily_usage_count < 10 →
          (∀ e, create (.error e) request now db = ⟨.error (.analysisFailed e), db, 1⟩)
          ∧ ∀ a, ∃ resp, (create (.ok a) request now db).result = .ok resp) := by
  intro request now db user hnone hfind htier hwin
  obtain ⟨r, hr, hnlt⟩ := hwin
  have hlimit : tierLimit user.subscription_tier = 10 := by rw [htier]; rfl
  constructor
  · intro hge analysis
    have hc : checkUsageLimit request.userId now db = .error .quotaExceeded := by
      unfold checkUsageLimit
      simp only [hfind, hr, hlimit, if_neg hnlt, if_pos hge]
    exact create_eq_of_checkErr analysis request now db _ hnone hc
  · intro hlt
    have hc : checkUsageLimit request.userId now db = .ok db := by
      unfold checkUsageLimit
      simp only [hfind, hr, hlimit, if_neg hnlt, if_neg (Nat.not_le.mpr hlt)]
    constructor
    · intro e
      exact create_eq_of_analysisErr e request now db db hnone hc
    · intro a
      exact ⟨_, by rw [create_eq_of_ok a request now db db hnone hc]⟩

open ExplanationService in
/-- Claim C3: a missing or past reset timestamp makes the quota gate reset
the counter to 0 and the window to now + 24h and pass without evaluating the
limit, so a `create` at that instant succeeds even when the stored count was
already at (or beyond) the tier limit. -/
theorem c3_reset_before_limit_check :
    ∀ userId now db user,
      db.users.find? (fun u => u.id == userId) = some user →
      (user.daily_usage_reset_at = none
        ∨ ∃ r, user.daily_usage_reset_at = some r ∧ r < now) →
      checkUsageLimit userId now db = .ok (resetDailyUsage userId now db)
      ∧ (∀ u' ∈ (resetDailyUsage userId now db).users, u'.id = userId →
          u'.daily_usage_count = 0 ∧ u'.daily_usage_reset_at = some (now + 86400000))
      ∧ ∀ request a, request.userId = userId →
          findDuplicate request.userId request.imageHash db = none →
          ∃ resp, (create (.ok a) request now db).result = .ok resp := by
  intro userId now db user hfind hwin
  have hc : checkUsageLimit userId now db = .ok (resetDailyUsage userId now db) := by
    unfold checkUsageLimit
    rcases hwin with hnone | ⟨r, hr, hlt⟩
    · simp only [hfind, hnone]
    · simp only [hfind, hr, if_pos hlt]
  refine ⟨hc, ?_, ?_⟩
  · intro u' hmem hid
    unfold resetDailyUsage at hmem
    simp only [List.mem_map] at hmem
    obtain ⟨u0, _, hu0⟩ := hmem
    by_cases h0 : u0.id == userId
    · rw [if_pos h0] at hu0
      rw [← hu0]
      exact ⟨rfl, rfl⟩
    · rw [if_neg h0] at hu0
      exfalso
      apply h0
      rw [hu0]
      exact beq_iff_eq.mpr hid
  · intro request a hreq hnone
    exact ⟨_, by
      rw [create_eq_of_ok a request now db (resetDailyUsage userId now db) hnone
        (by rw [hreq]; exact hc)]⟩

namespace OpenAIService

theorem analyzeImage_eq_of_hit (provider : ProviderCall → Except ProviderError Completion)
    (parseJson : String → Option Json) (request : VisionAnalysisRequest)
    (e f : Nat) (cache : Cache) (c : VisionAnalysisResponse)
    (h : lookupCache (getCacheKey request) cache = some c) :
    analyzeImage provider parseJson request e f cache
      = ⟨.ok { c with processingTimeMs := e }, cache, []⟩ := by
  unfold analyzeImage
  dsimp only
  rw [h]

theorem fallbackAnalysis_calls (provider : ProviderCall → Except ProviderError Completion)
    (request : VisionAnalysisRequest) (f : Nat) (cache : Cache) (prior : List ProviderCall) :
    (fallbackAnalysis provider request f cache prior).calls = prior ++ [fallbackCall request] := by
  unfold fallbackAnalysis
  dsimp only
  cases hp : provider (fallbackCall request) with
  | error err => rfl
  | ok completion => rfl

end OpenAIService

open OpenAIService in
/-- Claim C4 (amended): a cache hit returns the cached payload with only
`processingTimeMs` replaced by the elapsed time of the hit call and performs
no provider call; two requests share a cache key exactly when they agree on
image URL, developer-mode flag, language, and the prompt defaulted to the
empty string (so an absent prompt and an empty prompt share a key); and on a
cache miss at least one provider call is made. -/
theorem c4_cache_behavior :
    (∀ provider parseJson request e f cache c,
        lookupCache (getCacheKey request) cache = some c →
        analyzeImage provider parseJson request e f cache
          = ⟨.ok { c with processingTimeMs := e }, cache, []⟩)
    ∧ (∀ r1 r2 : VisionAnalysisRequest,
        getCacheKey r1 = getCacheKey r2
          ↔ (r1.imageUrl = r2.imageUrl ∧ r1.prompt.getD "" = r2.prompt.getD ""
              ∧ r1.isDeveloperMode = r2.isDeveloperMode ∧ r1.language = r2.language))
    ∧ (∀ provider parseJson request e f cache,
        lookupCache (getCacheKey request) cache = none →
        (analyzeImage provider parseJson request e f cache).calls ≠ []) := by
  refine ⟨analyzeImage_eq_of_hit, ?_, ?_⟩
  · intro r1 r2
    simp [getCacheKey, CacheKey.mk.injEq]
  · intro provider parseJson request e f cache h
    unfold analyzeImage
    dsimp only
    rw [h]
    cases hp : provider (primaryCall request) with
    | error err =>
      dsimp only
      by_cases hb : isBadRequest err
      · rw [if_pos hb, fallbackAnalysis_calls]
        simp
      · rw [if_neg hb]
        simp
    | ok completion =>
      dsimp only
      cases hcontent : completion.content with
      | none => simp
      | some response =>
        dsimp only
        by_cases hresp : response = ""
        · rw [if_pos hresp]
          simp
        · rw [if_neg hresp]
          simp

open OpenAIService in
/-- Claim C5: a non-empty reply on which neither the fenced-block extraction
nor the whole-reply parse yields JSON degrades to category `other`, empty
tags, confidence 0.7 and the raw reply as the explanation; `parseResponse`
is a total function, so it never throws. -/
theorem c5_parse_degrade :
    ∀ (parseJson : String → Option Json) (response : String),
      response ≠ "" →
      (∀ s, extractFenced response = some s → parseJson s = none) →
      parseJson response = none →
      parseResponse parseJson response
        = { explanation := response, category := "other", tags := [],
            confidence := (7 : Rat)/10 } := by
  intro parseJson response _ hfence hwhole
  unfold parseResponse
  cases hx : extractFenced response with
  | none =>
    simp only [hx, Option.getD_none]
    rw [hwhole]
  | some s =>
    simp only [hx, Option.getD_some]
    rw [hfence s hx]

open OpenAIService in
/-- Claim C6: a provider rejection that is an `APIError` with status 400
triggers exactly one fallback retry at reduced image fidelity (`low` vs
`high`) and reduced token budget (800 vs 1500), whose success yields
confidence 0.5 with empty tags and the catch-all category `other`; any other
provider failure is propagated to the caller after the single primary call,
with no fallback. -/
theorem c6_fallback_on_bad_request :
    ∀ provider parseJson request e f cache,
      lookupCache (getCacheKey request) cache = none →
      (∀ c, provider (primaryCall request) = .error (.apiError 400) →
          provider (fallbackCall request) = .ok c →
          analyzeImage provider parseJson request e f cache
            = ⟨.ok { explanation := contentOrDefault c, category := "other", tags := [],
                     confidence := (1 : Rat)/2, tokensUsed := c.totalTokens.getD 0,
                     processingTimeMs := f },
                cache, [primaryCall request, fallbackCall request]⟩)
      ∧ (∀ err, isBadRequest err = false →
          provider (primaryCall request) = .error err →
          analyzeImage provider parseJson request e f cache
            = ⟨.error (.provider err), cache, [primaryCall request]⟩)
      ∧ ((fallbackCall request).maxTokens = 800
          ∧ (fallbackCall request).maxTokens < (primaryCall request).maxTokens
          ∧ (fallbackCall request).detail = "low" ∧ (primaryCall request).detail = "high") := by
  intro provider parseJson request e f cache hmiss
  refine ⟨?_, ?_, rfl, by norm_num [fallbackCall, primaryCall], rfl, rfl⟩
  · intro c hp hfb
    unfold analyzeImage
    dsimp only
    rw [hmiss]
    dsimp only
    rw [hp]
    dsimp only
    have hcond : isBadRequest (ProviderError.apiError 400) = true := rfl
    rw [if_pos hcond]
    unfold fallbackAnalysis
    dsimp only
    rw [hfb]
    rfl
  · intro err hbad hp
    unfold analyzeImage
    dsimp only
    rw [hmiss]
    dsimp only
    rw [hp]
    dsimp only
    rw [hbad, if_neg Bool.false_ne_true]

theorem mem_insertDescBy {α : Type} (key : α → Nat) (x a : α) (l : List α) :
    a ∈ insertDescBy key x l ↔ a = x ∨ a ∈ l := by
  induction l with
  | nil => simp [insertDescBy]
  | cons y ys ih =>
    unfold insertDescBy
    by_cases h : key x > key y
    · rw [if_pos h]
      simp [List.mem_cons]
    · rw [if_neg h]
      simp only [List.mem_cons, ih]
      tauto

theorem mem_sortDescBy {α : Type} (key : α → Nat) (a : α) (l : List α) :
    a ∈ sortDescBy key l ↔ a ∈ l := by
  induction l with
  | nil => simp [sortDescBy]
  | cons x xs ih =>
    unfold sortDescBy
    rw [mem_insertDescBy]
    simp [List.mem_cons, ih]

/-- Claim C7 (amended): the favorite-toggle, delete, and chat operations
fail with the not-found error exactly when no record with that id owned by
that user exists at all — soft-deletion does not matter: the three ownership
lookups do not filter on `deleted_at`, so a soft-deleted owned record is
still found, and in particular `toggleFavorite` on it succeeds and flips the
flag instead of failing. -/
theorem c7_not_found_is_ownership_only :
    (∀ db id userId now chatReply msg,
        (∀ r ∈ db.explanations, ¬ (r.id = id ∧ r.user_id = userId)) →
        (ExplanationService.toggleFavorite id userId db).fst = .error .notFound
        ∧ (ExplanationService.delete id userId now db).fst = .error .notFound
        ∧ (ChatService.sendMessage chatReply ⟨id, userId, msg⟩ now db).result
            = .error .notFound)
    ∧ (∀ db id userId e,
        db.explanations.find? (fun r => r.id == id && r.user_id == userId) = some e →
        (ExplanationService.toggleFavorite id userId db).fst = .ok (!e.is_favorited)) := by
  constructor
  · intro db id userId now chatReply msg hno
    have hfind : db.explanations.find? (fun r => r.id == id && r.user_id == userId) = none := by
      rw [List.find?_eq_none]
      intro r hr
      simp only [Bool.and_eq_true, beq_iff_eq]
      exact fun hc => hno r hr hc
    refine ⟨?_, ?_, ?_⟩
    · unfold ExplanationService.toggleFavorite
      rw [hfind]
    · unfold ExplanationService.delete
      rw [hfind]
    · unfold ChatService.sendMessage
      dsimp only
      rw [hfind]
  · intro db id userId e hfind
    unfold ExplanationService.toggleFavorite
    rw [hfind]

open ExplanationService in
/-- Claim C9: after a successful soft delete, the record is excluded from
every `list` result and from `findDuplicate`, and `getById` returns the
null result (`none`) rather than an error. -/
theorem c9_soft_delete_visibility :
    ∀ db id userId now,
      (delete id userId now db).fst = .ok () →
      (∀ p item, item ∈ (list p (delete id userId now db).snd).data → item.id ≠ id)
      ∧ (∀ u h e, findDuplicate u h (delete id userId now db).snd = some e → e.id ≠ id)
      ∧ (getById id userId (delete id userId now db).snd).fst = none := by
  intro db id userId now hdel
  cases hf : db.explanations.find? (fun r => r.id == id && r.user_id == userId) with
  | none =>
    unfold delete at hdel
    rw [hf] at hdel
    cases hdel
  | some ex =>
    have hsnd : (delete id userId now db).snd.explanations
        = db.explanations.map
            (fun r => if r.id == id then { r with deleted_at := some now } else r) := by
      unfold delete
      rw [hf]
    have hkey : ∀ r, r ∈ (delete id userId now db).snd.explanations →
        r.id = id → r.deleted_at = some now := by
      rw [hsnd]
      intro r hr hrid
      simp only [List.mem_map] at hr
      obtain ⟨r0, _, hr0⟩ := hr
      by_cases h0 : r0.id == id
      · rw [if_pos h0] at hr0
        rw [← hr0]
      · rw [if_neg h0] at hr0
        exact absurd (by rw [hr0]; exact beq_iff_eq.mpr hrid) h0
    refine ⟨?_, ?_, ?_⟩
    · intro p item hitem
      unfold list at hitem
      dsimp only at hitem
      simp only [List.mem_map] at hitem
      obtain ⟨r, hrmem, hritem⟩ := hitem
      have hr2 : r ∈ sortDescBy (fun r => r.created_at)
          ((delete id userId now db).snd.explanations.filter (listWhere p)) :=
        List.drop_subset _ _ (List.take_subset _ _ hrmem)
      rw [mem_sortDescBy] at hr2
      rw [List.mem_filter] at hr2
      obtain ⟨hrmem2, hwhere⟩ := hr2
      intro hid
      have hrid : r.id = id := by
        rw [← hritem] at hid
        exact hid
      have hdead := hkey r hrmem2 hrid
      have hlive : r.deleted_at.isNone = true := by
        simp only [listWhere, Bool.and_eq_true] at hwhere
        exact hwhere.1.1.1.2
      rw [hdead] at hlive
      cases hlive
    · intro u h e hfd hid
      unfold findDuplicate at hfd
      have hmem := latestBy_mem hfd
      rw [List.mem_filter] at hmem
      obtain ⟨hmem2, hpred⟩ := hmem
      have hdead := hkey e hmem2 hid
      have hlive : e.deleted_at.isNone = true := by
        simp only [dupPred, Bool.and_eq_true] at hpred
        exact hpred.2
      rw [hdead] at hlive
      cases hlive
    · have hfind : (delete id userId now db).snd.explanations.find?
          (fun r => r.id == id && r.user_id == userId && r.deleted_at.isNone) = none := by
        rw [List.find?_eq_none]
        intro r hr hpred
        simp only [Bool.and_eq_true, beq_iff_eq] at hpred
        have hdead := hkey r hr hpred.1.1
        rw [hdead] at hpred
        cases hpred.2
      unfold getById
      rw [hfind]

open StorageService in
/-- Claim C10: the backend `uploadImage` short-circuits whenever any prior
explanation of the same user carries the hash of the processed bytes —
`findByHash` does not filter on the deletion timestamp, so this includes
soft-deleted records (the hypothesis below places no constraint on
`deleted_at`) — returning the stored image and thumbnail URLs and uploading
no fresh storage objects. -/
theorem c10_upload_dedup_ignores_soft_delete :
    ∀ (processImage thumbGen : Bytes → Bytes) (sha256hex : Bytes → String)
      (storeOk : String → Bool) (publicUrl : String → String)
      (file : Bytes) (userId mimeType : String) (now : Nat) (db : DB) (e : ExplanationRecord),
      ALLOWED_TYPES.contains mimeType = true →
      file.length ≤ MAX_FILE_SIZE →
      db.explanations.find?
          (fun r => r.image_hash == sha256hex (processImage file) && r.user_id == userId)
        = some e →
      uploadImage processImage thumbGen sha256hex storeOk publicUrl file userId mimeType now db
        = ⟨.ok { url := e.image_url, thumbnail := e.image_thumbnail_url, hash := e.image_hash },
            []⟩ := by
  intro processImage thumbGen sha256hex storeOk publicUrl file userId mimeType now db e
    hmime hsize hfind
  unfold uploadImage
  rw [if_neg (by rw [hmime]; exact fun hc => hc rfl)]
  rw [if_neg (Nat.not_lt.mpr hsize)]
  dsimp only
  unfold findByHash
  rw [hfind]

/-- Claim C8: what the code does on a chat turn with 12 prior stored
messages.  `getHistory` orders ascending and applies `take MAX_HISTORY`, so
the context handed to the model is the OLDEST ten messages (m01..m10) plus
the new user message — not the most recent ten — and `getHistory` afterwards
still returns only ten messages even though all fourteen are stored.  This
contradicts the source comment `Keep last 10 messages for context`. -/
theorem c8_oldest_ten_sent :
    c8out.sent =
      [("user", "m01"), ("assistant", "m02"), ("user", "m03"), ("assistant", "m04"),
       ("user", "m05"), ("assistant", "m06"), ("user", "m07"), ("assistant", "m08"),
       ("user", "m09"), ("assistant", "m10"), ("user", "q")]
    ∧ (ChatService.getHistory 3 c8out.db).length = 10
    ∧ c8out.db.messages.length = 14 := by
  refine ⟨by decide, by decide, by decide⟩

/-- Claim C4, counterexample: the second (cache-hit) call is not
byte-identical to the first — `processingTimeMs` is recomputed (0 vs 100) —
even though it makes no provider call; and an absent prompt and an
empty-string prompt produce the same cache key, so changing the prompt
component between those two values does not change the key. -/
theorem c4_counterexample :
    c4o2.result ≠ c4o1.result
    ∧ OpenAIService.getCacheKey { c4req with prompt := some "" }
        = OpenAIService.getCacheKey c4req
    ∧ c4o2.calls = [] := by
  refine ⟨?_, rfl, rfl⟩
  intro h
  exact absurd
    (congrArg (fun x => x.toOption.map (fun r => r.processingTimeMs)) h) (by decide)

/-- Claim C7, counterexample: `toggleFavorite` on a soft-deleted owned
record does not fail with a not-found error — it succeeds and flips the
flag, because the ownership lookup has no `deleted_at` filter. -/
theorem c7_counterexample :
    (ExplanationService.toggleFavorite 1 "u" sampleDbDeleted).fst = .ok true
    ∧ sampleDeleted.deleted_at = some 50 := ⟨rfl, rfl⟩

/-- Witness for C1: concrete two-call run — the second `create` with the
identical request returns the first response unchanged, mutates nothing,
and consults no analyzer. -/
theorem c1_witness :
    (ExplanationService.create (.ok sampleAnalysis) sampleReq 100 sampleDb).modelCalls = 1
    ∧ ExplanationService.create (.ok sampleAnalysis) sampleReq 200
        (ExplanationService.create (.ok sampleAnalysis) sampleReq 100 sampleDb).db
      = ⟨.ok sampleResp,
          (ExplanationService.create (.ok sampleAnalysis) sampleReq 100 sampleDb).db, 0⟩ :=
  ⟨(c1_dedup_short_circuit.2 sampleAnalysis sampleReq 100 sampleDb sampleResp rfl rfl).1,
   (c1_dedup_short_circuit.2 sampleAnalysis sampleReq 100 sampleDb sampleResp rfl rfl).2
     (.ok sampleAnalysis) 200⟩

/-- Witness for C2: at the limit the concrete create fails with the quota
error without touching state or the analyzer; below the limit a failed
analysis leaves the concrete state untouched. -/
theorem c2_witness :
    ExplanationService.create (.ok sampleAnalysis) sampleReq 100 sampleDbAt10
      = ⟨.error .quotaExceeded, sampleDbAt10, 0⟩
    ∧ ExplanationService.create (.error .emptyResponse) sampleReq 100 sampleDb
      = ⟨.error (.analysisFailed .emptyResponse), sampleDb, 1⟩ :=
  ⟨(c2_quota_check_and_late_commit sampleReq 100 sampleDbAt10 sampleUserAt10 rfl rfl rfl
        ⟨1000, rfl, by decide⟩).1 (by decide) (.ok sampleAnalysis),
   ((c2_quota_check_and_late_commit sampleReq 100 sampleDb sampleUser rfl rfl rfl
        ⟨1000, rfl, by decide⟩).2 (by decide)).1 .emptyResponse⟩

/-- Witness for C3: the at-limit user with an expired window passes the
quota gate with the counter reset. -/
theorem c3_witness :
    ExplanationService.checkUsageLimit "u1" 2000 sampleDbAt10
      = .ok (ExplanationService.resetDailyUsage "u1" 2000 sampleDbAt10) :=
  (c3_reset_before_limit_check "u1" 2000 sampleDbAt10 sampleUserAt10 rfl
    (Or.inr ⟨1000, rfl, by decide⟩)).1

/-- Witness for C4: a concrete cache hit returns the cached payload with
only the processing time replaced and performs no provider call. -/
theorem c4_witness :
    OpenAIService.analyzeImage c4prov (fun _ => none) c4req 0 0 c4o1.cache
      = ⟨.ok { c4r1 with processingTimeMs := 0 }, c4o1.cache, []⟩ :=
  c4_cache_behavior.1 c4prov (fun _ => none) c4req 0 0 c4o1.cache c4r1 rfl

/-- Witness for C5: a concrete unparseable reply degrades to the raw text
with category other, no tags and confidence 0.7. -/
theorem c5_witness :
    OpenAIService.parseResponse (fun _ => none) "not json"
      = { explanation := "not json", category := "other", tags := [],
          confidence := (7 : Rat)/10 } :=
  c5_parse_degrade (fun _ => none) "not json" (by decide) (fun _ _ => rfl) rfl

/-- Witness for C6: a concrete 400 rejection falls back once at low detail
with confidence 0.5, while a concrete connection failure is propagated after
the single primary call. -/
theorem c6_witness :
    OpenAIService.analyzeImage c6prov (fun _ => none) c4req 0 9 []
      = ⟨.ok { explanation := "a cat", category := "other", tags := [],
               confidence := (1 : Rat)/2, tokensUsed := 5, processingTimeMs := 9 },
          [], [OpenAIService.primaryCall c4req, OpenAIService.fallbackCall c4req]⟩
    ∧ OpenAIService.analyzeImage c6provDown (fun _ => none) c4req 0 9 []
      = ⟨.error (.provider (.connection "timeout")), [], [OpenAIService.primaryCall c4req]⟩ :=
  ⟨(c6_fallback_on_bad_request c6prov (fun _ => none) c4req 0 9 [] rfl).1
      { content := some "a cat", totalTokens := some 5 } rfl rfl,
   (c6_fallback_on_bad_request c6provDown (fun _ => none) c4req 0 9 [] rfl).2.1
      (.connection "timeout") rfl rfl⟩

/-- Witness for C7 (amended): a pair that resolves to no owned record gets
the not-found error, while the soft-deleted owned record is still toggled. -/
theorem c7_witness :
    (ExplanationService.toggleFavorite 5 "nobody" sampleDbDeleted).fst = .error .notFound
    ∧ (ExplanationService.toggleFavorite 1 "u" sampleDbDeleted).fst = .ok true :=
  ⟨(c7_not_found_is_ownership_only.1 sampleDbDeleted 5 "nobody" 0 (.ok ("r", 1)) "m"
      (by decide)).1,
   c7_not_found_is_ownership_only.2 sampleDbDeleted 1 "u" sampleDeleted rfl⟩

/-- Witness for C9: after the concrete soft delete, `getById` returns the
null result. -/
theorem c9_witness :
    (ExplanationService.getById 1 "u"
        (ExplanationService.delete 1 "u" 99 sampleDbDeleted).snd).fst = none :=
  (c9_soft_delete_visibility sampleDbDeleted 1 "u" 99 rfl).2.2

/-- Witness for C10: a concrete re-upload whose only matching record is
soft-deleted short-circuits with the stored URLs and uploads nothing. -/
theorem c10_witness :
    StorageService.uploadImage (fun b => b) (fun b => b) (fun _ => "h") (fun _ => true)
        (fun p => p) [1, 2, 3] "u" "image/jpeg" 77 sampleDbDeleted
      = ⟨.ok { url := "iu", thumbnail := "tu", hash := "h" }, []⟩ :=
  c10_upload_dedup_ignores_soft_delete (fun b => b) (fun b => b) (fun _ => "h")
    (fun _ => true) (fun p => p) [1, 2, 3] "u" "image/jpeg" 77 sampleDbDeleted sampleDeleted
    rfl (by decide) rfl
